import Mathlib

/-!
Shallow embedding of the commute-calculator engine (src/src/App.js).

Conventions of the embedding:
* JS numbers are modelled as `ℚ` (all values the engine manipulates are
  exact decimals); durations that the code produces with `Math.round` are `ℤ`.
* `Math.random()` is modelled by an explicit stream `rng : ℕ → ℚ` of draws,
  consumed in the source's evaluation order; theorems hypothesise each used
  draw lies in `[0, 1)` as `Math.random` guarantees.
* Timestamps are epoch milliseconds (`ℤ`), on a simplified local calendar
  with no DST: a day is exactly 86400000 ms, `Date.prototype.getHours` is
  `(t % 86400000) / 3600000`.  `new Date(ms)` clips a fractional argument
  to an integer by truncation toward zero (`jsTrunc`).
* Network calls (`getRoutes`) are modelled by an oracle `provider : ℕ → RoutingResponse`
  together with a call counter threaded through the planner, so that "the
  provider is queried exactly once" is statable.
-/

/-- JS `Math.round`: round half toward positive infinity. -/
def jsRound (q : ℚ) : ℤ := ⌊q + 1/2⌋

/-- JS `new Date(ms)` time clip on a numeric argument: truncation toward zero. -/
def jsTrunc (q : ℚ) : ℤ := if 0 ≤ q then ⌊q⌋ else ⌈q⌉

/-- JS `Date.prototype.getHours` on epoch ms (fixed-offset local clock, no DST). -/
def getHoursMs (t : ℤ) : ℤ := t % 86400000 / 3600000

/-- JS `Date.prototype.getMinutes` on epoch ms. -/
def getMinutesMs (t : ℤ) : ℤ := t % 86400000 % 3600000 / 60000

/-! ## Traffic Model (`simulateTrafficVariation`, App.js lines 78–90) -/

/-- The multiplier chosen by `simulateTrafficVariation` for a departure hour,
given the `Math.random()` draw `r`.  Mirrors the if/else-if/else chain:
peak `(7 ≤ h ∧ h ≤ 9) ∨ (17 ≤ h ∧ h ≤ 19)` wins over the shoulder test. -/
def trafficMultiplier (hour : ℤ) (r : ℚ) : ℚ :=
  if (7 ≤ hour ∧ hour ≤ 9) ∨ (17 ≤ hour ∧ hour ≤ 19) then
    135/100 + r * (15/100)
  else if (6 ≤ hour ∧ hour < 7) ∨ (9 ≤ hour ∧ hour < 10) ∨
          (16 ≤ hour ∧ hour < 17) ∨ (19 ≤ hour ∧ hour < 20) then
    12/10 + r * (1/10)
  else
    1 + r * (1/10)

/-- The function `simulateTrafficVariation(baseTime, hour, minute)`; the random draw is the
explicit argument `r`.  Note the source never reads `minute`. -/
def simulateTrafficVariation (baseTime : ℚ) (hour : ℤ) (minute : ℤ) (r : ℚ) : ℤ :=
  let _ := minute
  jsRound (baseTime * trafficMultiplier hour r)

/-! ## Routing service data (OSRM response shape, consumed by `getRoutes`) -/

/-- One OSRM path step: `name` and `ref` are optional strings ("" is falsy in
JS, so `some ""` behaves like `none` wherever the code tests truthiness). -/
structure RouteStep where
  name : Option String
  ref : Option String
deriving DecidableEq, Repr, Inhabited

/-- One OSRM leg (only `legs[0]` is ever read; single-leg trips assumed). -/
structure RouteLeg where
  steps : List RouteStep
deriving DecidableEq, Repr, Inhabited

/-- One raw OSRM route: total duration (seconds), distance (meters), legs. -/
structure RawRoute where
  duration : ℚ
  distance : ℚ
  legs : List RouteLeg
deriving DecidableEq, Repr, Inhabited

/-- The OSRM response: status code plus routes. -/
structure RoutingResponse where
  code : String
  routes : List RawRoute
deriving DecidableEq, Repr, Inhabited

/-! ## Highway Extractor (`extractHighways`, App.js lines 58–75)

The regex `/\b(I-\d+|US-\d+|SR-\d+|State Route \d+|Highway \d+|Route \d+|Interstate \d+)\b/gi`
is embedded as an explicit scanner: a word boundary before the match, one of
the seven alternatives tried left to right (literal part case-insensitive,
then one or more digits taken greedily), and a word boundary after the
digits.  Global matching resumes after each match, else advances one char. -/

/-- JS `\w` (the regex is ASCII): letter, digit or underscore. -/
def isWordChar (c : Char) : Bool := c.isAlpha || c.isDigit || c = '_'

/-- Case-insensitively match a literal; returns the consumed original
characters and the rest of the input. -/
def matchLiteral : List Char → List Char → Option (List Char × List Char)
  | [], input => some ([], input)
  | _ :: _, [] => none
  | l :: ls, c :: cs =>
    if c.toLower = l.toLower then
      (matchLiteral ls cs).map fun p => (c :: p.1, p.2)
    else none

/-- Greedy `\d+` minus the "+": take the maximal run of digits. -/
def takeDigits : List Char → List Char × List Char
  | [] => ([], [])
  | c :: cs =>
    if c.isDigit then
      let p := takeDigits cs
      (c :: p.1, p.2)
    else ([], c :: cs)

/-- The trailing `\b`: after a digit, satisfied iff the next char is not a
word character (or the input ends). -/
def boundaryAfter : List Char → Bool
  | [] => true
  | c :: _ => !isWordChar c

/-- Try one alternative `<literal><digits>` at the current position. -/
def matchAlternative (lit : List Char) (input : List Char) :
    Option (List Char × List Char) :=
  match matchLiteral lit input with
  | none => none
  | some (pre, rest) =>
    let p := takeDigits rest
    if p.1 = [] then none
    else if boundaryAfter p.2 then some (pre ++ p.1, p.2) else none

/-- The seven alternatives, in the source's order. -/
def highwayAlternatives : List (List Char) :=
  ["I-".toList, "US-".toList, "SR-".toList, "State Route ".toList,
   "Highway ".toList, "Route ".toList, "Interstate ".toList]

/-- First alternative that matches at the current position. -/
def matchHere : List (List Char) → List Char → Option (List Char × List Char)
  | [], _ => none
  | lit :: lits, input =>
    match matchAlternative lit input with
    | some m => some m
    | none => matchHere lits input

/-- The global scan.  `prevWord` records whether the previous character was a
word character (for the leading `\b`); `fuel` bounds the recursion (every
step consumes at least one character, so `input.length` steps suffice). -/
def scanMatchesAux : ℕ → Bool → List Char → List String
  | 0, _, _ => []
  | _ + 1, _, [] => []
  | fuel + 1, prevWord, c :: cs =>
    if prevWord then
      scanMatchesAux fuel (isWordChar c) cs
    else
      match matchHere highwayAlternatives (c :: cs) with
      | some (m, rest) => m.asString :: scanMatchesAux fuel true rest
      | none => scanMatchesAux fuel (isWordChar c) cs

/-- JS `str.match(highwayPattern)` with the `g` flag: all matches, in order. -/
def jsHighwayMatches (s : String) : List String :=
  scanMatchesAux s.toList.length false s.toList

/-- JS `Set.prototype.add` on a list kept in insertion order. -/
def setAdd (l : List String) (s : String) : List String :=
  if s ∈ l then l else l ++ [s]

/-- The body of the `steps.forEach` in `extractHighways`: add the name's
pattern matches (when `step.name` is truthy), then `step.ref` (when truthy). -/
def addStepHighways (acc : List String) (step : RouteStep) : List String :=
  let acc1 :=
    match step.name with
    | some n => if n ≠ "" then (jsHighwayMatches n).foldl setAdd acc else acc
    | none => acc
  match step.ref with
  | some r => if r ≠ "" then setAdd acc1 r else acc1
  | none => acc1

/-- The function `extractHighways(steps)`: accumulate into the Set, then `slice(0, 4)`. -/
def extractHighways (steps : List RouteStep) : List String :=
  (steps.foldl addStepHighways []).take 4

/-! ## Route Provider (`getRoutes`, App.js lines 29–55) -/

/-- One processed route candidate as pushed by the loop in `getRoutes`. -/
structure RouteCandidate where
  type : String
  duration : ℤ
  distance : ℚ
  highways : List String
  steps : List String
deriving DecidableEq, Repr, Inhabited

/-- The steps `route.legs[0].steps` (single-leg assumption; an empty `legs` would be a
TypeError in JS and is modelled as no steps). -/
def firstLegSteps (route : RawRoute) : List RouteStep :=
  (route.legs.headD ⟨[]⟩).steps

/-- The preview `route.legs[0].steps.slice(0,5).map(step => step.name).filter(name => name)`:
the first five step names that are truthy. -/
def previewSteps (route : RawRoute) : List String :=
  ((firstLegSteps route).take 5).filterMap fun step =>
    match step.name with
    | some n => if n ≠ "" then some n else none
    | none => none

/-- The push of iteration `i` of the loop in `getRoutes`. -/
def mkCandidate (i : ℕ) (route : RawRoute) : RouteCandidate :=
  { type := if i = 0 then "Fastest Route" else "Alternative " ++ toString i
    duration := jsRound (route.duration / 60)
    distance := (jsRound (route.distance / 1000 * 10) : ℚ) / 10
    highways := extractHighways (firstLegSteps route)
    steps := previewSteps route }

/-- The `for` loop of `getRoutes`, carrying the index `i`. -/
def labelRoutes : ℕ → List RawRoute → List RouteCandidate
  | _, [] => []
  | i, route :: rest => mkCandidate i route :: labelRoutes (i + 1) rest

/-- The function `getRoutes`: throw on a non-Ok status, else process
`Math.min(3, routes.length)` routes. -/
def getRoutes (resp : RoutingResponse) : Except String (List RouteCandidate) :=
  if resp.code ≠ "Ok" then .error "Routing failed"
  else .ok (labelRoutes 0 (resp.routes.take 3))

/-! ## Schedule Planner (App.js lines 92–163) -/

/-- The object pushed for each route in leave-now mode: the spread of the
candidate with `duration` overwritten and `durationDisplay` added.  The
source calls `simulateTrafficVariation` separately for the two fields. -/
structure AdjustedRoute where
  type : String
  duration : ℤ
  distance : ℚ
  highways : List String
  steps : List String
  durationDisplay : String
deriving DecidableEq, Repr, Inhabited

/-- One leave-now scenario (`arrivalTime` is `null` in this mode). -/
structure NowScenario where
  departureTime : ℤ
  arrivalTime : Option ℤ
  routes : List AdjustedRoute
deriving DecidableEq, Repr, Inhabited

/-- One route in arrive-by mode, with estimated arrival and on-time flag. -/
structure ArrivalRoute where
  type : String
  duration : ℤ
  distance : ℚ
  highways : List String
  steps : List String
  durationDisplay : String
  estimatedArrival : ℤ
  onTime : Bool
deriving DecidableEq, Repr, Inhabited

/-- One arrive-by scenario. -/
structure ArrivalScenario where
  departureTime : ℤ
  arrivalTime : ℤ
  buffer : ℤ
  routes : List ArrivalRoute
deriving DecidableEq, Repr, Inhabited

/-- The route object pushed in leave-now mode for scenario `i` and the
`rj = (j, route)` entry of the candidate list: the spread of the candidate
with `duration` and `durationDisplay` each obtained by its OWN call to
`simulateTrafficVariation` — the object literal evaluates `duration` first
(draw `2*(i*n + j)`) and `durationDisplay` second (draw `2*(i*n + j) + 1`),
two independent `Math.random()` draws, exactly as App.js lines 106–110. -/
def adjustNowRoute (hour minute : ℤ) (rng : ℕ → ℚ) (i n : ℕ)
    (rj : ℕ × RouteCandidate) : AdjustedRoute :=
  { type := rj.2.type
    duration := simulateTrafficVariation rj.2.duration hour minute
      (rng (2 * (i * n + rj.1)))
    distance := rj.2.distance
    highways := rj.2.highways
    steps := rj.2.steps
    durationDisplay :=
      toString (simulateTrafficVariation rj.2.duration hour minute
        (rng (2 * (i * n + rj.1) + 1))) ++ " min" }

/-- Iteration `i` of the leave-now loop (App.js lines 97–112): departure at
`now + i*15` minutes, hour/minute extracted from that timestamp, every
candidate route adjusted. -/
def mkNowScenario (routes : List RouteCandidate) (now : ℤ) (rng : ℕ → ℚ)
    (i : ℕ) : NowScenario :=
  let offset : ℤ := (i : ℤ) * 15
  let departureTime := now + offset * 60000
  let hour := getHoursMs departureTime
  let minute := getMinutesMs departureTime
  { departureTime := departureTime
    arrivalTime := none
    routes := routes.enum.map (adjustNowRoute hour minute rng i routes.length) }

/-- The function `calculateCommuteLeaveNow(origin, destination)` (App.js lines 92–115).
The single `await getRoutes(...)` is the call to `provider k`; the returned
counter `k + 1` records that exactly one routing query was issued. -/
def calculateCommuteLeaveNow (provider : ℕ → RoutingResponse) (k : ℕ)
    (now : ℤ) (rng : ℕ → ℚ) :
    Except String (List NowScenario) × ℕ :=
  match getRoutes (provider k) with
  | .error e => (.error e, k + 1)
  | .ok routes =>
    (.ok ((List.range 3).map (mkNowScenario routes now rng)), k + 1)

/-- Resolution of the target arrival time (App.js lines 122–129):
`new Date(year, month, date, targetHour, targetMinute)` against today's
local midnight, rolled one day forward when strictly before `now`. -/
def resolveArrival (todayStart now targetHour targetMinute : ℤ) : ℤ :=
  let arrivalDate := todayStart + targetHour * 3600000 + targetMinute * 60000
  if arrivalDate < now then arrivalDate + 86400000 else arrivalDate

/-- The mean `routes.reduce((sum, r) => sum + r.duration, 0) / routes.length`
(App.js line 136).  For the empty list JS yields `NaN`; the `ℚ` model
yields `0`, and every theorem about arrive-by mode assumes at least one
route, where both agree. -/
def avgDuration (routes : List RouteCandidate) : ℚ :=
  (routes.foldl (fun sum r => sum + (r.duration : ℚ)) 0) / routes.length

/-- The route object built in arrive-by mode (App.js lines 147–158): the
adjustment is computed ONCE into `adjustedDuration` and reused for both the
numeric and display fields; `onTime` is the JS `estimatedArrival <= arrivalDate`
comparison of the two timestamps. -/
def adjustArrivalRoute (arrivalDate departureTime depHour depMinute : ℤ)
    (rng : ℕ → ℚ) (bi n : ℕ) (rj : ℕ × RouteCandidate) : ArrivalRoute :=
  let adjustedDuration := simulateTrafficVariation rj.2.duration
    depHour depMinute (rng (bi * n + rj.1))
  let estimatedArrival := departureTime + adjustedDuration * 60000
  { type := rj.2.type
    duration := adjustedDuration
    distance := rj.2.distance
    highways := rj.2.highways
    steps := rj.2.steps
    durationDisplay := toString adjustedDuration ++ " min"
    estimatedArrival := estimatedArrival
    onTime := decide (estimatedArrival ≤ arrivalDate) }

/-- One iteration of the `for buffer of buffers` loop (App.js lines 134–160),
for `bb = (bufferIndex, buffer)`. -/
def mkArrivalScenario (routes : List RouteCandidate) (arrivalDate : ℤ)
    (rng : ℕ → ℚ) (bb : ℕ × ℤ) : ArrivalScenario :=
  let totalTimeNeeded : ℚ := avgDuration routes + bb.2
  let departureTime := jsTrunc ((arrivalDate : ℚ) - totalTimeNeeded * 60000)
  let depHour := getHoursMs departureTime
  let depMinute := getMinutesMs departureTime
  { departureTime := departureTime
    arrivalTime := arrivalDate
    buffer := bb.2
    routes := routes.enum.map
      (adjustArrivalRoute arrivalDate departureTime depHour depMinute rng
        bb.1 routes.length) }

/-- The function `calculateCommuteByArrival(origin, destination, targetArrivalTime)`
(App.js lines 117–163).  The `"HH:MM".split(':')` parse is done by the
caller of the model, which passes `targetHour`/`targetMinute`; `todayStart`
is local midnight of today.  Draw index for buffer index `bi` and route `j`
is `bi * n + j`. -/
def calculateCommuteByArrival (provider : ℕ → RoutingResponse) (k : ℕ)
    (todayStart now targetHour targetMinute : ℤ) (rng : ℕ → ℚ) :
    Except String (List ArrivalScenario) × ℕ :=
  match getRoutes (provider k) with
  | .error e => (.error e, k + 1)
  | .ok routes =>
    let arrivalDate := resolveArrival todayStart now targetHour targetMinute
    let buffers : List ℤ := [0, 10, 20]
    (.ok (buffers.enum.map (mkArrivalScenario routes arrivalDate rng)), k + 1)

/-! ## Shared lemmas -/

/-- The clip `jsTrunc` is the identity on integers. -/
theorem jsTrunc_intCast (z : ℤ) : jsTrunc (z : ℚ) = z := by
  unfold jsTrunc
  split <;> simp

/-- Lower bound for `jsRound`. -/
theorem le_jsRound {z : ℤ} {q : ℚ} (h : (z : ℚ) ≤ q + 1/2) : z ≤ jsRound q := by
  unfold jsRound
  exact Int.le_floor.mpr h

/-- Every branch of the traffic multiplier is at least `1` for `0 ≤ r`. -/
theorem one_le_trafficMultiplier (hour : ℤ) {r : ℚ} (hr : 0 ≤ r) :
    1 ≤ trafficMultiplier hour r := by
  unfold trafficMultiplier
  split_ifs <;> linarith

/-- In a peak or shoulder hour the multiplier is at least `6/5`. -/
theorem peak_shoulder_trafficMultiplier (hour : ℤ) {r : ℚ} (hr : 0 ≤ r)
    (h : (7 ≤ hour ∧ hour ≤ 9) ∨ (17 ≤ hour ∧ hour ≤ 19) ∨
         (6 ≤ hour ∧ hour < 7) ∨ (9 ≤ hour ∧ hour < 10) ∨
         (16 ≤ hour ∧ hour < 17) ∨ (19 ≤ hour ∧ hour < 20)) :
    6/5 ≤ trafficMultiplier hour r := by
  unfold trafficMultiplier
  split_ifs with h1 h2
  · linarith
  · linarith
  · exfalso
    rcases h with h | h | h | h | h | h <;> [exact h1 (Or.inl h); exact h1 (Or.inr h);
      exact h2 (Or.inl h); exact h2 (Or.inr (Or.inl h));
      exact h2 (Or.inr (Or.inr (Or.inl h))); exact h2 (Or.inr (Or.inr (Or.inr h)))]

/-- Outside the peak and shoulder tests the multiplier is the off-peak one. -/
theorem offpeak_trafficMultiplier (hour : ℤ) (r : ℚ)
    (h1 : ¬((7 ≤ hour ∧ hour ≤ 9) ∨ (17 ≤ hour ∧ hour ≤ 19)))
    (h2 : ¬((6 ≤ hour ∧ hour < 7) ∨ (9 ≤ hour ∧ hour < 10) ∨
            (16 ≤ hour ∧ hour < 17) ∨ (19 ≤ hour ∧ hour < 20))) :
    trafficMultiplier hour r = 1 + r * (1/10) := by
  unfold trafficMultiplier
  rw [if_neg h1, if_neg h2]

/-! ## C10 -/

/-- C10: the Traffic Model's output is independent of its minute argument —
for every base duration, hour and fixed random draw, any two minute values
give the same adjusted duration, because `simulateTrafficVariation` never
reads `minute`. -/
theorem c10_minute_independent (baseTime : ℚ) (hour m1 m2 : ℤ) (r : ℚ) :
    simulateTrafficVariation baseTime hour m1 r =
      simulateTrafficVariation baseTime hour m2 r := rfl

/-! ## C2 -/

/-- C2 counterexample: a departure at hour 9 (draw `r = 0`) takes the peak
branch, so the multiplier is `1.35`, outside the claimed shoulder range
`[1.15, 1.30]`; on a 100-minute base the adjusted duration is 135, above
the 130 a shoulder multiplier could produce. -/
theorem c2_counterexample :
    trafficMultiplier 9 0 = 27/20 ∧ (13/10 : ℚ) < trafficMultiplier 9 0 ∧
      simulateTrafficVariation 100 9 0 0 = 135 := by
  refine ⟨by norm_num [trafficMultiplier], by norm_num [trafficMultiplier], ?_⟩
  norm_num [simulateTrafficVariation, trafficMultiplier, jsRound]

/-- C2 amended: the source tests the peak condition `7 ≤ h ≤ 9 ∨ 17 ≤ h ≤ 19`
first, so of the shoulder band only hours 6 and 16 reach the shoulder branch,
whose multiplier lies in `[1.20, 1.30)` (inside the claimed `[1.15, 1.30]`);
departures at hour 9 and hour 19 instead receive a peak multiplier in
`[1.35, 1.50)`. -/
theorem c2_amended_shoulder (hour : ℤ) (r : ℚ) (hr0 : 0 ≤ r) (hr1 : r < 1) :
    ((hour = 6 ∨ hour = 16) →
      23/20 ≤ trafficMultiplier hour r ∧ trafficMultiplier hour r ≤ 13/10) ∧
    ((hour = 9 ∨ hour = 19) →
      27/20 ≤ trafficMultiplier hour r ∧ trafficMultiplier hour r < 3/2) := by
  constructor
  · rintro (rfl | rfl) <;>
      · unfold trafficMultiplier
        norm_num
        constructor <;> linarith
  · rintro (rfl | rfl) <;>
      · unfold trafficMultiplier
        norm_num
        constructor <;> linarith

/-- Witness for C2's amended theorem at hour 6, draw 0. -/
theorem c2_amended_shoulder_witness :
    (23/20 : ℚ) ≤ trafficMultiplier 6 0 ∧ trafficMultiplier 6 0 ≤ 13/10 :=
  (c2_amended_shoulder 6 0 le_rfl (by norm_num)).1 (Or.inl rfl)

/-! ## C4 -/

/-- C4: for a positive integer base, any clock hour/minute and any draw in
`[0, 1)`: a peak or shoulder hour never shrinks the duration; an off-peak
hour applies a multiplier in `[1.00, 1.10]`; the result is
`round(base × multiplier)` and is a positive integer. -/
theorem c4_traffic_bounds (base hour minute : ℤ) (r : ℚ)
    (hbase : 1 ≤ base) (hh0 : 0 ≤ hour) (hh1 : hour ≤ 23)
    (hm0 : 0 ≤ minute) (hm1 : minute ≤ 59) (hr0 : 0 ≤ r) (hr1 : r < 1) :
    (((7 ≤ hour ∧ hour ≤ 9) ∨ (17 ≤ hour ∧ hour ≤ 19) ∨
      (6 ≤ hour ∧ hour < 7) ∨ (9 ≤ hour ∧ hour < 10) ∨
      (16 ≤ hour ∧ hour < 17) ∨ (19 ≤ hour ∧ hour < 20)) →
        base ≤ simulateTrafficVariation (base : ℚ) hour minute r) ∧
    ((¬((7 ≤ hour ∧ hour ≤ 9) ∨ (17 ≤ hour ∧ hour ≤ 19)) ∧
      ¬((6 ≤ hour ∧ hour < 7) ∨ (9 ≤ hour ∧ hour < 10) ∨
        (16 ≤ hour ∧ hour < 17) ∨ (19 ≤ hour ∧ hour < 20))) →
        1 ≤ trafficMultiplier hour r ∧ trafficMultiplier hour r ≤ 11/10) ∧
    simulateTrafficVariation (base : ℚ) hour minute r =
      jsRound ((base : ℚ) * trafficMultiplier hour r) ∧
    1 ≤ simulateTrafficVariation (base : ℚ) hour minute r := by
  have hb : (1 : ℚ) ≤ (base : ℚ) := by exact_mod_cast hbase
  refine ⟨?_, ?_, rfl, ?_⟩
  · intro h
    have hmult : 6/5 ≤ trafficMultiplier hour r :=
      peak_shoulder_trafficMultiplier hour hr0 h
    show base ≤ jsRound ((base : ℚ) * trafficMultiplier hour r)
    refine le_jsRound ?_
    nlinarith [hmult, hb]
  · rintro ⟨h1, h2⟩
    rw [offpeak_trafficMultiplier hour r h1 h2]
    constructor <;> linarith
  · have hmult : 1 ≤ trafficMultiplier hour r := one_le_trafficMultiplier hour hr0
    show (1 : ℤ) ≤ jsRound ((base : ℚ) * trafficMultiplier hour r)
    refine le_jsRound ?_
    nlinarith [hmult, hb]

/-- Witness for C4 at base 10, hour 8 (peak), minute 30, draw 1/2. -/
theorem c4_traffic_bounds_witness :
    10 ≤ simulateTrafficVariation ((10 : ℤ) : ℚ) 8 30 (1/2) ∧
      1 ≤ simulateTrafficVariation ((10 : ℤ) : ℚ) 8 30 (1/2) := by
  have h := c4_traffic_bounds 10 8 30 (1/2) (by norm_num) (by norm_num)
    (by norm_num) (by norm_num) (by norm_num) (by norm_num) (by norm_num)
  exact ⟨h.1 (Or.inl (by norm_num)), h.2.2.2⟩

/-! ## C3 -/

theorem labelRoutes_length (l : List RawRoute) :
    ∀ k, (labelRoutes k l).length = l.length := by
  induction l with
  | nil => intro k; rfl
  | cons a t ih => intro k; simp [labelRoutes, ih]

theorem labelRoutes_getD_type (l : List RawRoute) :
    ∀ (k i : ℕ), i < l.length →
      ((labelRoutes k l).getD i default).type =
        if k + i = 0 then "Fastest Route" else "Alternative " ++ toString (k + i) := by
  induction l with
  | nil => intro k i h; simp at h
  | cons a t ih =>
    intro k i h
    cases i with
    | zero => simp [labelRoutes, mkCandidate]
    | succ j =>
      have hj : j < t.length := by simpa using h
      have := ih (k + 1) j hj
      simp only [labelRoutes, List.getD_cons_succ, this]
      have harith : k + 1 + j = k + (j + 1) := by omega
      rw [harith]

/-- C3 counterexample: with an Ok status and zero upstream routes the code
does not raise "Routing failed"; it returns an empty route list — refuting
both the "fails with RoutingError on zero routes" and the "always
non-empty" parts of the claim. -/
theorem c3_counterexample_zero_routes :
    getRoutes { code := "Ok", routes := [] } = Except.ok ([] : List RouteCandidate) := by
  simp [getRoutes, labelRoutes]

/-- C3 amended: `getRoutes` fails with the routing error exactly when the
upstream status is not "Ok"; with an Ok status it returns the first
`min 3 n` of the `n` upstream routes — so the output is empty when the
upstream returns zero routes, and otherwise non-empty with at most 3
entries, index 0 labeled "Fastest Route" and index `i ≥ 1` labeled
"Alternative i". -/
theorem c3_amended_route_contract (resp : RoutingResponse) :
    (resp.code ≠ "Ok" → getRoutes resp = .error "Routing failed") ∧
    ∀ out, getRoutes resp = .ok out →
      out.length = min 3 resp.routes.length ∧
      (resp.routes ≠ [] → out ≠ []) ∧
      ∀ i, i < out.length →
        (out.getD i default).type =
          if i = 0 then "Fastest Route" else "Alternative " ++ toString i := by
  constructor
  · intro h
    simp [getRoutes, h]
  · intro out hout
    unfold getRoutes at hout
    by_cases hc : resp.code ≠ "Ok"
    · simp [hc] at hout
    · rw [if_neg hc] at hout
      have hout' : labelRoutes 0 (resp.routes.take 3) = out := by
        exact Except.ok.inj hout
      subst hout'
      refine ⟨?_, ?_, ?_⟩
      · rw [labelRoutes_length, List.length_take]
      · intro hne
        have hpos : 0 < resp.routes.length := List.length_pos.mpr hne
        have : 0 < (labelRoutes 0 (resp.routes.take 3)).length := by
          rw [labelRoutes_length, List.length_take]
          omega
        exact List.ne_nil_of_length_pos this
      · intro i hi
        have hi' : i < (resp.routes.take 3).length := by
          rwa [labelRoutes_length] at hi
        have := labelRoutes_getD_type (resp.routes.take 3) 0 i hi'
        simpa using this

/-- Concrete routing response for the C3 witness: Ok with two raw routes. -/
def c3Resp : RoutingResponse :=
  { code := "Ok"
    routes := [ { duration := 600, distance := 1500, legs := [ { steps := [] } ] },
                { duration := 720, distance := 2500, legs := [ { steps := [] } ] } ] }

/-- The candidate list `getRoutes` produces for `c3Resp`. -/
def c3Out : List RouteCandidate := labelRoutes 0 (c3Resp.routes.take 3)

/-- Witness for C3's amended theorem on `c3Resp`. -/
theorem c3_amended_route_contract_witness :
    getRoutes c3Resp = Except.ok c3Out ∧
      c3Out.length = min 3 c3Resp.routes.length ∧
      0 < c3Out.length ∧
      (c3Out.getD 1 default).type = "Alternative 1" := by
  have hok : getRoutes c3Resp = Except.ok c3Out := by
    simp [getRoutes, c3Out, c3Resp]
  have h := (c3_amended_route_contract c3Resp).2 c3Out hok
  refine ⟨hok, h.1, List.length_pos.mpr (h.2.1 (by simp [c3Resp])), ?_⟩
  have hlen : 1 < c3Out.length := by
    rw [h.1]; simp [c3Resp]
  have := h.2.2 1 hlen
  simpa using this

/-! ## C8 -/

/-- A step is "content-free" when its name and ref are both absent or empty
(both falsy in JS). -/
def stepHasContent (s : RouteStep) : Bool :=
  (s.name.getD "" ≠ "") || (s.ref.getD "" ≠ "")

theorem setAdd_nodup {l : List String} (h : l.Nodup) (s : String) :
    (setAdd l s).Nodup := by
  unfold setAdd
  split
  · exact h
  · next hs => simp [List.nodup_append, h, hs]

theorem foldl_setAdd_nodup (ms : List String) :
    ∀ {acc : List String}, acc.Nodup → (ms.foldl setAdd acc).Nodup := by
  induction ms with
  | nil => intro acc h; exact h
  | cons m t ih => intro acc h; exact ih (setAdd_nodup h m)

theorem addStepHighways_nodup {acc : List String} (h : acc.Nodup)
    (step : RouteStep) : (addStepHighways acc step).Nodup := by
  unfold addStepHighways
  have h1 : (match step.name with
      | some n => if n ≠ "" then (jsHighwayMatches n).foldl setAdd acc else acc
      | none => acc).Nodup := by
    cases step.name with
    | none => exact h
    | some n =>
      by_cases hn : n ≠ ""
      · simpa [hn] using foldl_setAdd_nodup (jsHighwayMatches n) h
      · simpa [hn] using h
  cases step.ref with
  | none => exact h1
  | some r =>
    by_cases hr : r ≠ ""
    · simpa [hr] using setAdd_nodup h1 r
    · simpa [hr] using h1

theorem foldl_addStepHighways_nodup (steps : List RouteStep) :
    ∀ {acc : List String}, acc.Nodup → (steps.foldl addStepHighways acc).Nodup := by
  induction steps with
  | nil => intro acc h; exact h
  | cons s t ih => intro acc h; exact ih (addStepHighways_nodup h s)

theorem addStepHighways_of_no_content {step : RouteStep}
    (h : stepHasContent step = false) (acc : List String) :
    addStepHighways acc step = acc := by
  unfold stepHasContent at h
  simp only [Bool.or_eq_false_iff, decide_eq_false_iff_not, not_not] at h
  obtain ⟨hn, hr⟩ := h
  unfold addStepHighways
  cases hname : step.name with
  | none =>
    cases href : step.ref with
    | none => rfl
    | some r =>
      rw [href] at hr
      simp at hr
      simp [hr]
  | some n =>
    rw [hname] at hn
    simp at hn
    cases href : step.ref with
    | none => simp [hn]
    | some r =>
      rw [href] at hr
      simp at hr
      simp [hn, hr]

theorem foldl_addStepHighways_filter (steps : List RouteStep) :
    ∀ acc, (steps.filter stepHasContent).foldl addStepHighways acc =
      steps.foldl addStepHighways acc := by
  induction steps with
  | nil => intro acc; rfl
  | cons s t ih =>
    intro acc
    cases hs : stepHasContent s with
    | true => simp [List.filter_cons, hs, ih]
    | false =>
      simp [List.filter_cons, hs, ih, addStepHighways_of_no_content hs]

/-- C8: highway extraction is a pure deterministic function (equal inputs
give identical ordered output); its output lists distinct identifiers
(first-seen insertion order with duplicates collapsed, hence no duplicate
entries), has length at most 4, and steps carrying neither a truthy name
nor a truthy ref contribute nothing (filtering them out leaves the output
unchanged). -/
theorem c8_extract_highways (steps steps2 : List RouteStep) :
    (steps = steps2 → extractHighways steps = extractHighways steps2) ∧
    (extractHighways steps).Nodup ∧
    (extractHighways steps).length ≤ 4 ∧
    extractHighways (steps.filter stepHasContent) = extractHighways steps := by
  refine ⟨fun h => by rw [h], ?_, ?_, ?_⟩
  · exact (List.take_sublist 4 _).nodup (foldl_addStepHighways_nodup steps List.nodup_nil)
  · simpa [extractHighways, List.length_take] using min_le_left 4 _
  · unfold extractHighways
    rw [foldl_addStepHighways_filter]

/-- Witness for C8 at a concrete step list containing a duplicate and a
content-free step. -/
theorem c8_extract_highways_witness :
    extractHighways [⟨some "I-5 to I-5", none⟩, ⟨some "", some ""⟩] =
        extractHighways [⟨some "I-5 to I-5", none⟩, ⟨some "", some ""⟩] ∧
      (extractHighways [⟨some "I-5 to I-5", none⟩, ⟨some "", some ""⟩]).Nodup ∧
      (extractHighways [⟨some "I-5 to I-5", none⟩, ⟨some "", some ""⟩]).length ≤ 4 := by
  have h := c8_extract_highways [⟨some "I-5 to I-5", none⟩, ⟨some "", some ""⟩]
    [⟨some "I-5 to I-5", none⟩, ⟨some "", some ""⟩]
  exact ⟨h.1 rfl, h.2.1, h.2.2.1⟩

/-! ## Planner shape lemmas -/

/-- When the routing query succeeds, leave-now mode produces exactly the
three scenarios for offsets 0/15/30 and bumps the query counter once. -/
theorem calculateCommuteLeaveNow_ok {provider : ℕ → RoutingResponse} {k : ℕ}
    {routes : List RouteCandidate} (now : ℤ) (rng : ℕ → ℚ)
    (hget : getRoutes (provider k) = .ok routes) :
    calculateCommuteLeaveNow provider k now rng =
      (.ok [mkNowScenario routes now rng 0, mkNowScenario routes now rng 1,
            mkNowScenario routes now rng 2], k + 1) := by
  unfold calculateCommuteLeaveNow
  rw [hget]
  rfl

/-- When the routing query succeeds, arrive-by mode produces exactly the
three scenarios for buffers 0/10/20 and bumps the query counter once. -/
theorem calculateCommuteByArrival_ok {provider : ℕ → RoutingResponse} {k : ℕ}
    {routes : List RouteCandidate} (todayStart now targetHour targetMinute : ℤ)
    (rng : ℕ → ℚ) (hget : getRoutes (provider k) = .ok routes) :
    calculateCommuteByArrival provider k todayStart now targetHour targetMinute rng =
      (.ok [mkArrivalScenario routes (resolveArrival todayStart now targetHour targetMinute) rng (0, 0),
            mkArrivalScenario routes (resolveArrival todayStart now targetHour targetMinute) rng (1, 10),
            mkArrivalScenario routes (resolveArrival todayStart now targetHour targetMinute) rng (2, 20)],
       k + 1) := by
  unfold calculateCommuteByArrival
  rw [hget]
  rfl

/-- On a failed routing query both planners surface the error and still bump
the counter once. -/
theorem planners_err {provider : ℕ → RoutingResponse} {k : ℕ} {e : String}
    (todayStart now targetHour targetMinute : ℤ) (rng : ℕ → ℚ)
    (hget : getRoutes (provider k) = .error e) :
    calculateCommuteLeaveNow provider k now rng = (.error e, k + 1) ∧
      calculateCommuteByArrival provider k todayStart now targetHour targetMinute rng =
        (.error e, k + 1) := by
  constructor
  · unfold calculateCommuteLeaveNow
    rw [hget]
  · unfold calculateCommuteByArrival
    rw [hget]

/-! ## C6 -/

/-- C6: in arrive-by mode the target arrival clock time is resolved against
today's date (`todayStart` = local midnight); every produced scenario
carries that target rolled forward exactly one day when it is strictly
earlier than `now`, and unchanged otherwise. -/
theorem c6_target_resolution (provider : ℕ → RoutingResponse) (k : ℕ)
    (todayStart now targetHour targetMinute : ℤ) (rng : ℕ → ℚ)
    (ts : List ArrivalScenario)
    (hok : (calculateCommuteByArrival provider k todayStart now targetHour
      targetMinute rng).1 = .ok ts) :
    ∀ s ∈ ts,
      (todayStart + targetHour * 3600000 + targetMinute * 60000 < now →
        s.arrivalTime =
          todayStart + targetHour * 3600000 + targetMinute * 60000 + 86400000) ∧
      (¬ todayStart + targetHour * 3600000 + targetMinute * 60000 < now →
        s.arrivalTime = todayStart + targetHour * 3600000 + targetMinute * 60000) := by
  cases h : getRoutes (provider k) with
  | error e =>
    rw [(planners_err todayStart now targetHour targetMinute rng h).2] at hok
    simp at hok
  | ok routes =>
    rw [calculateCommuteByArrival_ok todayStart now targetHour targetMinute rng h] at hok
    simp only at hok
    have hok' := Except.ok.inj hok
    intro s hs
    rw [← hok'] at hs
    have harr : s.arrivalTime = resolveArrival todayStart now targetHour targetMinute := by
      simp only [List.mem_cons, List.mem_singleton] at hs
      rcases hs with rfl | rfl | rfl | hfalse
      · rfl
      · rfl
      · rfl
      · simp at hfalse
    rw [harr]
    unfold resolveArrival
    constructor
    · intro hlt
      simp only [if_pos hlt]
    · intro hge
      simp only [if_neg hge]

/-- Routing response used by the C6/C7 witnesses: Ok, one 100-minute route. -/
def c6Resp : RoutingResponse :=
  { code := "Ok"
    routes := [ { duration := 6000, distance := 10000, legs := [ { steps := [] } ] } ] }

/-- The candidates `getRoutes` yields for `c6Resp`. -/
def c6Routes : List RouteCandidate := labelRoutes 0 (c6Resp.routes.take 3)

/-- Witness for C6: target 09:00 resolved at 10:00 (now = 36000000 ms) rolls
to tomorrow. -/
theorem c6_target_resolution_witness :
    ((0 : ℤ) + 9 * 3600000 + 0 * 60000 < 36000000) ∧
      (mkArrivalScenario c6Routes (resolveArrival 0 36000000 9 0) (fun _ => 0)
          (0, 0)).arrivalTime =
        0 + 9 * 3600000 + 0 * 60000 + 86400000 := by
  have hget : getRoutes ((fun _ : ℕ => c6Resp) 0) = .ok c6Routes := by
    simp [getRoutes, c6Resp, c6Routes]
  have hok := congrArg Prod.fst
    (@calculateCommuteByArrival_ok (fun _ => c6Resp) 0 c6Routes
      0 36000000 9 0 (fun _ => 0) hget)
  refine ⟨by norm_num, ?_⟩
  exact (c6_target_resolution (fun _ => c6Resp) 0 0 36000000 9 0 (fun _ => 0)
    _ hok _ (List.mem_cons_self _ _)).1 (by norm_num)

/-! ## C7 -/

/-- Per-route facts inside one arrive-by scenario. -/
theorem mkArrivalScenario_route_spec (routes : List RouteCandidate)
    (arrivalDate : ℤ) (rng : ℕ → ℚ) (bb : ℕ × ℤ) :
    ∀ rt ∈ (mkArrivalScenario routes arrivalDate rng bb).routes,
      rt.estimatedArrival =
        (mkArrivalScenario routes arrivalDate rng bb).departureTime +
          rt.duration * 60000 ∧
      (rt.onTime = true ↔
        rt.estimatedArrival ≤ (mkArrivalScenario routes arrivalDate rng bb).arrivalTime) := by
  intro rt hrt
  simp only [mkArrivalScenario, List.mem_map] at hrt
  obtain ⟨rj, _, rfl⟩ := hrt
  refine ⟨rfl, ?_⟩
  simp only [adjustArrivalRoute, mkArrivalScenario]
  exact decide_eq_true_iff

/-- C7: in arrive-by mode every route's `estimatedArrival` is the scenario
departure plus the adjusted duration (in minutes), and `onTime` holds iff
`estimatedArrival ≤ targetArrival` — equality counts as on-time. -/
theorem c7_on_time (provider : ℕ → RoutingResponse) (k : ℕ)
    (todayStart now targetHour targetMinute : ℤ) (rng : ℕ → ℚ)
    (ts : List ArrivalScenario)
    (hok : (calculateCommuteByArrival provider k todayStart now targetHour
      targetMinute rng).1 = .ok ts) :
    ∀ s ∈ ts, ∀ rt ∈ s.routes,
      rt.estimatedArrival = s.departureTime + rt.duration * 60000 ∧
      (rt.onTime = true ↔ rt.estimatedArrival ≤ s.arrivalTime) ∧
      (rt.estimatedArrival = s.arrivalTime → rt.onTime = true) := by
  cases h : getRoutes (provider k) with
  | error e =>
    rw [(planners_err todayStart now targetHour targetMinute rng h).2] at hok
    simp at hok
  | ok routes =>
    rw [calculateCommuteByArrival_ok todayStart now targetHour targetMinute rng h] at hok
    simp only at hok
    have hok' := Except.ok.inj hok
    intro s hs
    rw [← hok'] at hs
    simp only [List.mem_cons, List.mem_singleton] at hs
    have hspec : ∀ rt ∈ s.routes,
        rt.estimatedArrival = s.departureTime + rt.duration * 60000 ∧
        (rt.onTime = true ↔ rt.estimatedArrival ≤ s.arrivalTime) := by
      rcases hs with rfl | rfl | rfl | hfalse
      · exact mkArrivalScenario_route_spec _ _ _ _
      · exact mkArrivalScenario_route_spec _ _ _ _
      · exact mkArrivalScenario_route_spec _ _ _ _
      · simp at hfalse
    intro rt hrt
    obtain ⟨h1, h2⟩ := hspec rt hrt
    exact ⟨h1, h2, fun heq => h2.mpr (le_of_eq heq)⟩

/-- The buffer-0 arrive-by scenario for the C7 witness (now = 08:00, so the
09:00 target does not roll). -/
def c7Scen : ArrivalScenario :=
  mkArrivalScenario c6Routes (resolveArrival 0 28800000 9 0) (fun _ => 0) (0, 0)

/-- The single route of `c7Scen`. -/
def c7Route : ArrivalRoute := c7Scen.routes.headD default

/-- Witness for C7 on `c7Scen`'s route. -/
theorem c7_on_time_witness :
    c7Route.estimatedArrival = c7Scen.departureTime + c7Route.duration * 60000 ∧
      (c7Route.onTime = true ↔ c7Route.estimatedArrival ≤ c7Scen.arrivalTime) := by
  have hget : getRoutes ((fun _ : ℕ => c6Resp) 0) = .ok c6Routes := by
    simp [getRoutes, c6Resp, c6Routes]
  have hok := congrArg Prod.fst
    (@calculateCommuteByArrival_ok (fun _ => c6Resp) 0 c6Routes
      0 28800000 9 0 (fun _ => 0) hget)
  have h := c7_on_time (fun _ => c6Resp) 0 0 28800000 9 0 (fun _ => 0)
    _ hok c7Scen (List.mem_cons_self _ _) c7Route (List.mem_cons_self _ _)
  exact ⟨h.1, h.2.1⟩

/-! ## C5 -/

/-- The integer route-duration sum computed by the `reduce` in App.js
line 136, before the division. -/
def durationSum (routes : List RouteCandidate) : ℤ :=
  routes.foldl (fun sum r => sum + r.duration) 0

theorem foldl_duration_cast (routes : List RouteCandidate) :
    ∀ q : ℤ, (routes.foldl (fun sum r => sum + (r.duration : ℚ)) (q : ℚ)) =
      ((routes.foldl (fun sum r => sum + r.duration) q : ℤ) : ℚ) := by
  induction routes with
  | nil => intro q; rfl
  | cons a t ih =>
    intro q
    simp only [List.foldl_cons]
    rw [show ((q : ℚ) + (a.duration : ℚ)) = ((q + a.duration : ℤ) : ℚ) by push_cast; ring]
    exact ih (q + a.duration)

theorem avgDuration_eq_sum_div (routes : List RouteCandidate) :
    avgDuration routes = (durationSum routes : ℚ) / (routes.length : ℚ) := by
  unfold avgDuration durationSum
  rw [show ((0 : ℚ) = ((0 : ℤ) : ℚ)) by norm_num, foldl_duration_cast]

theorem length_le_durationSum (routes : List RouteCandidate)
    (hdur : ∀ r ∈ routes, 1 ≤ r.duration) :
    (routes.length : ℤ) ≤ durationSum routes := by
  unfold durationSum
  suffices h : ∀ q : ℤ, q + routes.length ≤ routes.foldl (fun sum r => sum + r.duration) q by
    simpa using h 0
  induction routes with
  | nil => intro q; simp
  | cons a t ih =>
    intro q
    simp only [List.foldl_cons, List.length_cons]
    have ha : 1 ≤ a.duration := hdur a (List.mem_cons_self a t)
    have := ih (fun r hr => hdur r (List.mem_cons_of_mem a hr)) (q + a.duration)
    push_cast
    push_cast at this
    linarith

/-- The function `getRoutes` never returns more than 3 candidates. -/
theorem getRoutes_length_le {resp : RoutingResponse} {out : List RouteCandidate}
    (h : getRoutes resp = .ok out) : out.length ≤ 3 := by
  unfold getRoutes at h
  by_cases hc : resp.code ≠ "Ok"
  · simp [hc] at h
  · rw [if_neg hc] at h
    have := Except.ok.inj h
    subst this
    rw [labelRoutes_length, List.length_take]
    omega

/-- For a non-empty candidate list of at most 3 routes whose durations are
all positive, the mean duration in milliseconds is a positive integer. -/
theorem avgDuration_ms_int (routes : List RouteCandidate) (hne : routes ≠ [])
    (hlen : routes.length ≤ 3) (hdur : ∀ r ∈ routes, 1 ≤ r.duration) :
    ∃ L : ℤ, 0 < L ∧ avgDuration routes * 60000 = (L : ℚ) := by
  have h1 : 1 ≤ routes.length := List.length_pos.mpr hne
  have hS : (routes.length : ℤ) ≤ durationSum routes := length_le_durationSum routes hdur
  have hcase : routes.length = 1 ∨ routes.length = 2 ∨ routes.length = 3 := by omega
  have havg := avgDuration_eq_sum_div routes
  rcases hcase with h | h | h
  · refine ⟨durationSum routes * 60000, ?_, ?_⟩
    · have : (1 : ℤ) ≤ durationSum routes := by
        rw [h] at hS; exact_mod_cast hS
      positivity
    · rw [havg, h]
      push_cast
      ring
  · refine ⟨durationSum routes * 30000, ?_, ?_⟩
    · have : (2 : ℤ) ≤ durationSum routes := by
        rw [h] at hS; exact_mod_cast hS
      positivity
    · rw [havg, h]
      push_cast
      field_simp
      ring
  · refine ⟨durationSum routes * 20000, ?_, ?_⟩
    · have : (3 : ℤ) ≤ durationSum routes := by
        rw [h] at hS; exact_mod_cast hS
      positivity
    · rw [havg, h]
      push_cast
      field_simp
      ring

/-- With the mean lead time integral in milliseconds, the `Date` time clip
in the arrive-by departure computation is exact. -/
theorem mkArrivalScenario_departure (routes : List RouteCandidate)
    (arrivalDate : ℤ) (rng : ℕ → ℚ) (bb : ℕ × ℤ) {L : ℤ}
    (hL : avgDuration routes * 60000 = (L : ℚ)) :
    (mkArrivalScenario routes arrivalDate rng bb).departureTime =
      arrivalDate - L - bb.2 * 60000 := by
  unfold mkArrivalScenario
  simp only
  have hX : ((arrivalDate : ℚ) - (avgDuration routes + (bb.2 : ℚ)) * 60000)
      = ((arrivalDate - L - bb.2 * 60000 : ℤ) : ℚ) := by
    push_cast
    linear_combination -hL
  rw [hX, jsTrunc_intCast]

/-- C5: with a successful route fetch (non-empty, positive durations), the
arrive-by engine yields exactly the three buffers 0/10/20 in order; every
scenario's departure equals the resolved target arrival minus
(mean base duration + buffer) minutes, departures are strictly decreasing
across the buffer list (the 20-minute-buffer scenario departs earliest),
and every departure strictly precedes the target arrival. -/
theorem c5_buffer_scenarios (provider : ℕ → RoutingResponse) (k : ℕ)
    (todayStart now targetHour targetMinute : ℤ) (rng : ℕ → ℚ)
    (routes : List RouteCandidate) (ts : List ArrivalScenario)
    (hget : getRoutes (provider k) = .ok routes)
    (hok : (calculateCommuteByArrival provider k todayStart now targetHour
      targetMinute rng).1 = .ok ts)
    (hne : routes ≠ []) (hdur : ∀ r ∈ routes, 1 ≤ r.duration) :
    ts.map (fun s => s.buffer) = [0, 10, 20] ∧
    (∀ s ∈ ts,
      s.arrivalTime = resolveArrival todayStart now targetHour targetMinute ∧
      (s.departureTime : ℚ) =
        (s.arrivalTime : ℚ) - (avgDuration routes + (s.buffer : ℚ)) * 60000 ∧
      s.departureTime < s.arrivalTime) ∧
    (ts.map fun s => s.departureTime).Pairwise (· > ·) := by
  have hlen3 := getRoutes_length_le hget
  obtain ⟨L, hL0, hLeq⟩ := avgDuration_ms_int routes hne hlen3 hdur
  rw [calculateCommuteByArrival_ok todayStart now targetHour targetMinute rng hget] at hok
  simp only at hok
  have hts := Except.ok.inj hok
  subst hts
  set A := resolveArrival todayStart now targetHour targetMinute with hA
  have hd0 : (mkArrivalScenario routes A rng (0, 0)).departureTime = A - L - 0 * 60000 :=
    mkArrivalScenario_departure routes A rng (0, 0) hLeq
  have hd1 : (mkArrivalScenario routes A rng (1, 10)).departureTime = A - L - 10 * 60000 :=
    mkArrivalScenario_departure routes A rng (1, 10) hLeq
  have hd2 : (mkArrivalScenario routes A rng (2, 20)).departureTime = A - L - 20 * 60000 :=
    mkArrivalScenario_departure routes A rng (2, 20) hLeq
  refine ⟨rfl, ?_, ?_⟩
  · intro s hs
    simp only [List.mem_cons, List.mem_singleton] at hs
    have hq : ∀ (bb : ℕ × ℤ),
        ((mkArrivalScenario routes A rng bb).departureTime : ℚ) =
          ((mkArrivalScenario routes A rng bb).arrivalTime : ℚ) -
            (avgDuration routes + ((mkArrivalScenario routes A rng bb).buffer : ℚ)) * 60000 := by
      intro bb
      rw [mkArrivalScenario_departure routes A rng bb hLeq]
      show ((A - L - bb.2 * 60000 : ℤ) : ℚ) =
        (A : ℚ) - (avgDuration routes + (bb.2 : ℚ)) * 60000
      push_cast
      linear_combination hLeq
    rcases hs with rfl | rfl | rfl | hfalse
    · refine ⟨rfl, hq (0, 0), ?_⟩
      have harr : (mkArrivalScenario routes A rng (0, 0)).arrivalTime = A := rfl
      rw [hd0, harr]
      linarith [hL0]
    · refine ⟨rfl, hq (1, 10), ?_⟩
      have harr : (mkArrivalScenario routes A rng (1, 10)).arrivalTime = A := rfl
      rw [hd1, harr]
      linarith [hL0]
    · refine ⟨rfl, hq (2, 20), ?_⟩
      have harr : (mkArrivalScenario routes A rng (2, 20)).arrivalTime = A := rfl
      rw [hd2, harr]
      linarith [hL0]
    · simp at hfalse
  · simp only [List.map_cons, List.map_nil]
    rw [hd0, hd1, hd2]
    refine List.Pairwise.cons ?_ (List.Pairwise.cons ?_
      (List.Pairwise.cons ?_ List.Pairwise.nil))
    · intro d hd
      simp only [List.mem_cons, List.mem_singleton, List.not_mem_nil, or_false] at hd
      rcases hd with rfl | rfl <;> omega
    · intro d hd
      simp only [List.mem_singleton, List.not_mem_nil, or_false, List.mem_cons] at hd
      subst hd
      omega
    · intro d hd
      simp at hd

/-- Witness for C5 on the one-route response `c6Resp` (target 09:00,
now 08:00): the three scenarios carry buffers 0, 10, 20 in order. -/
theorem c5_buffer_scenarios_witness :
    ([mkArrivalScenario c6Routes (resolveArrival 0 28800000 9 0) (fun _ => 0) (0, 0),
      mkArrivalScenario c6Routes (resolveArrival 0 28800000 9 0) (fun _ => 0) (1, 10),
      mkArrivalScenario c6Routes (resolveArrival 0 28800000 9 0) (fun _ => 0) (2, 20)].map
        (fun s => s.buffer)) = [0, 10, 20] := by
  have hget : getRoutes ((fun _ : ℕ => c6Resp) 0) = .ok c6Routes := by
    simp [getRoutes, c6Resp, c6Routes]
  have hok := congrArg Prod.fst
    (@calculateCommuteByArrival_ok (fun _ => c6Resp) 0 c6Routes
      0 28800000 9 0 (fun _ => 0) hget)
  have hne : c6Routes ≠ [] := by
    unfold c6Routes c6Resp
    simp [labelRoutes]
  have hdur : ∀ r ∈ c6Routes, 1 ≤ r.duration := by
    intro r hr
    simp only [c6Routes, c6Resp, List.take, labelRoutes, List.mem_singleton] at hr
    subst hr
    show (1 : ℤ) ≤ jsRound (6000 / 60)
    norm_num [jsRound]
  exact (c5_buffer_scenarios (fun _ => c6Resp) 0 0 28800000 9 0 (fun _ => 0)
    c6Routes _ hget hok hne hdur).1

/-! ## C9 -/

/-- The base fields of a candidate that traffic adjustment must not touch. -/
def routeBase (r : RouteCandidate) : String × ℚ × List String × List String :=
  (r.type, r.distance, r.highways, r.steps)

/-- The same base fields read back from a leave-now adjusted route. -/
def adjustedBase (ar : AdjustedRoute) : String × ℚ × List String × List String :=
  (ar.type, ar.distance, ar.highways, ar.steps)

/-- The same base fields read back from an arrive-by adjusted route. -/
def arrivalBase (ar : ArrivalRoute) : String × ℚ × List String × List String :=
  (ar.type, ar.distance, ar.highways, ar.steps)

theorem map_enumFrom_proj {α β γ : Type} (f : ℕ × α → β) (proj : β → γ)
    (base : α → γ) (hf : ∀ p, proj (f p) = base p.2) :
    ∀ (l : List α) (n : ℕ), ((List.enumFrom n l).map f).map proj = l.map base := by
  intro l
  induction l with
  | nil => intro n; rfl
  | cons a t ih =>
    intro n
    simp only [List.enumFrom, List.map_cons, List.map_nil, hf, ih (n + 1)]

theorem mkNowScenario_strip (routes : List RouteCandidate) (now : ℤ)
    (rng : ℕ → ℚ) (i : ℕ) :
    (mkNowScenario routes now rng i).routes.map adjustedBase =
      routes.map routeBase := by
  unfold mkNowScenario
  simp only [List.enum]
  refine map_enumFrom_proj _ adjustedBase routeBase ?_ routes 0
  intro p
  rfl

theorem mkArrivalScenario_strip (routes : List RouteCandidate)
    (arrivalDate : ℤ) (rng : ℕ → ℚ) (bb : ℕ × ℤ) :
    (mkArrivalScenario routes arrivalDate rng bb).routes.map arrivalBase =
      routes.map routeBase := by
  unfold mkArrivalScenario
  simp only [List.enum]
  refine map_enumFrom_proj _ arrivalBase routeBase ?_ routes 0
  intro p
  rfl

/-- C9: per direction, each planner issues exactly one Route Provider query
(the counter advances by one and the result depends only on the response to
call `k`), issued before any scenario is built; all 3 scenarios derive
their routes from that same candidate list, and the adjusted copies keep
every base field of the candidates intact (the base list itself, with its
original durations, is untouched). -/
theorem c9_single_fetch (provider provider2 : ℕ → RoutingResponse) (k : ℕ)
    (todayStart now targetHour targetMinute : ℤ) (rng : ℕ → ℚ) :
    (calculateCommuteLeaveNow provider k now rng).2 = k + 1 ∧
    (calculateCommuteByArrival provider k todayStart now targetHour
      targetMinute rng).2 = k + 1 ∧
    (provider k = provider2 k →
      calculateCommuteLeaveNow provider k now rng =
        calculateCommuteLeaveNow provider2 k now rng ∧
      calculateCommuteByArrival provider k todayStart now targetHour
          targetMinute rng =
        calculateCommuteByArrival provider2 k todayStart now targetHour
          targetMinute rng) ∧
    ∀ routes, getRoutes (provider k) = .ok routes →
      (∀ ts, (calculateCommuteLeaveNow provider k now rng).1 = .ok ts →
        ts.length = 3 ∧
          ∀ s ∈ ts, s.routes.map adjustedBase = routes.map routeBase) ∧
      (∀ ts, (calculateCommuteByArrival provider k todayStart now targetHour
          targetMinute rng).1 = .ok ts →
        ts.length = 3 ∧
          ∀ s ∈ ts, s.routes.map arrivalBase = routes.map routeBase) := by
  refine ⟨?_, ?_, ?_, ?_⟩
  · cases h : getRoutes (provider k) with
    | error e =>
      rw [(planners_err todayStart now targetHour targetMinute rng h).1]
    | ok routes =>
      rw [calculateCommuteLeaveNow_ok now rng h]
  · cases h : getRoutes (provider k) with
    | error e =>
      rw [(planners_err todayStart now targetHour targetMinute rng h).2]
    | ok routes =>
      rw [calculateCommuteByArrival_ok todayStart now targetHour targetMinute rng h]
  · intro hp
    constructor
    · unfold calculateCommuteLeaveNow
      rw [hp]
    · unfold calculateCommuteByArrival
      rw [hp]
  · intro routes hget
    constructor
    · intro ts hok
      rw [calculateCommuteLeaveNow_ok now rng hget] at hok
      simp only at hok
      have hts := Except.ok.inj hok
      subst hts
      refine ⟨rfl, ?_⟩
      intro s hs
      simp only [List.mem_cons, List.mem_singleton] at hs
      rcases hs with rfl | rfl | rfl | hfalse
      · exact mkNowScenario_strip routes now rng 0
      · exact mkNowScenario_strip routes now rng 1
      · exact mkNowScenario_strip routes now rng 2
      · simp at hfalse
    · intro ts hok
      rw [calculateCommuteByArrival_ok todayStart now targetHour targetMinute rng hget] at hok
      simp only at hok
      have hts := Except.ok.inj hok
      subst hts
      refine ⟨rfl, ?_⟩
      intro s hs
      simp only [List.mem_cons, List.mem_singleton] at hs
      rcases hs with rfl | rfl | rfl | hfalse
      · exact mkArrivalScenario_strip routes _ rng (0, 0)
      · exact mkArrivalScenario_strip routes _ rng (1, 10)
      · exact mkArrivalScenario_strip routes _ rng (2, 20)
      · simp at hfalse

/-- Witness for C9: with any concrete provider the counters advance by
exactly one call. -/
theorem c9_single_fetch_witness :
    (calculateCommuteLeaveNow (fun _ => c6Resp) 5 0 (fun _ => 0)).2 = 5 + 1 ∧
      (calculateCommuteByArrival (fun _ => c6Resp) 5 0 28800000 9 0
        (fun _ => 0)).2 = 5 + 1 := by
  have h := c9_single_fetch (fun _ => c6Resp) (fun _ => c6Resp) 5 0 28800000 9 0
    (fun _ => 0)
  exact ⟨h.1, h.2.1⟩

/-! ## C1 -/

/-- Routing response for the C1 evaluation: one route of 6000 s = 100 min. -/
def c1Resp : RoutingResponse :=
  { code := "Ok"
    routes := [ { duration := 6000, distance := 10000, legs := [ { steps := [] } ] } ] }

/-- The candidates `getRoutes` yields for `c1Resp`. -/
def c1Routes : List RouteCandidate := labelRoutes 0 (c1Resp.routes.take 3)

/-- A random stream whose first draw is 0 and whose later draws are 1/2 —
all legal `Math.random()` values. -/
def c1Rng : ℕ → ℚ := fun n => if n = 0 then 0 else 1/2

/-- The first leave-now scenario at noon (off-peak hour 12). -/
def c1Scen : NowScenario := mkNowScenario c1Routes 43200000 c1Rng 0

/-- Its single route. -/
def c1Route : AdjustedRoute := c1Scen.routes.headD default

/-- C1 evaluation at the failing input: the leave-now planner calls the
Traffic Model twice for the same (route, scenario) — draw 0 for the stored
`duration` and draw 1 for `durationDisplay` — so with draws 0 and 1/2 the
stored numeric duration is 100 while the formatted display reads
"105 min": the two fields come from independent draws and disagree. -/
theorem c1_double_draw_evaluation :
    (0 : ℚ) ≤ c1Rng 0 ∧ c1Rng 0 < 1 ∧ (0 : ℚ) ≤ c1Rng 1 ∧ c1Rng 1 < 1 ∧
    (calculateCommuteLeaveNow (fun _ => c1Resp) 0 43200000 c1Rng).1 =
      .ok [c1Scen, mkNowScenario c1Routes 43200000 c1Rng 1,
           mkNowScenario c1Routes 43200000 c1Rng 2] ∧
    c1Route.duration = 100 ∧
    c1Route.durationDisplay = "105 min" ∧
    toString c1Route.duration ++ " min" = "100 min" := by
  have hget : getRoutes ((fun _ : ℕ => c1Resp) 0) = .ok c1Routes := by
    simp [getRoutes, c1Resp, c1Routes]
  have hcd : ∀ r ∈ c1Routes, r.duration = 100 := by
    intro r hr
    simp only [c1Routes, c1Resp, List.take, labelRoutes, List.mem_singleton] at hr
    subst hr
    show jsRound (6000 / 60) = 100
    norm_num [jsRound]
  have hdur : c1Route.duration = 100 := by
    simp only [c1Route, c1Scen, mkNowScenario, c1Routes, c1Resp, List.take,
      labelRoutes, List.enum, List.enumFrom, List.map, List.headD, adjustNowRoute,
      c1Rng, mkCandidate]
    norm_num [simulateTrafficVariation, trafficMultiplier, jsRound,
      getHoursMs, getMinutesMs]
  have hdisp : c1Route.durationDisplay = "105 min" := by
    simp only [c1Route, c1Scen, mkNowScenario, c1Routes, c1Resp, List.take,
      labelRoutes, List.enum, List.enumFrom, List.map, List.headD, adjustNowRoute,
      c1Rng, mkCandidate]
    norm_num [simulateTrafficVariation, trafficMultiplier, jsRound,
      getHoursMs, getMinutesMs]
    decide
  refine ⟨by norm_num [c1Rng], by norm_num [c1Rng], by norm_num [c1Rng],
    by norm_num [c1Rng], ?_, hdur, hdisp, ?_⟩
  · exact congrArg Prod.fst (calculateCommuteLeaveNow_ok 43200000 c1Rng hget)
  · rw [hdur]
    decide
